import Mathlib

/-!
Verification development for the A2A question-generation pipeline core.

Shallow embedding of the Python sources under `src/`:

* `src/agents/quality_checker_agent.py` — `_determine_status`
* `src/agents/question_generator_agent.py` — `_parse_question` choice handling,
  `_parse_blueprint` distractor handling, `revise_question` revision counting
* `src/agents/concept_guide_agent.py` — `_ensure_loaded`, `select_concept`,
  `get_concepts`
* `src/agents/pipeline_controller.py` — `generate_question` state machine
* `src/a2a_local/server.py`, `src/a2a_local/client.py` — transport envelope

Python dictionaries coming from parsed JSON are embedded as structures with
`Option` fields (`none` models an absent key; `Option.getD` models
`dict.get(key, default)`).  Floats in the judge's score thresholds are
embedded as rationals; the thresholds 0.5, 0.7, 0.6 and the generated
scores are exactly representable, so no rounding behaviour is lost.
Randomness (`random.choice`) is embedded by an index supplied by the
environment, reduced modulo the candidate-list length.
-/

namespace A2A

/-! ### A small JSON value model

Used for the transport round-trip (C8) and as the opaque payload type the
pipeline controller threads through its state. -/

/-- A JSON value.  Numbers are integers; the sources examined here never
compare or transform fractional payload numbers. -/
inductive JsonVal where
  | null
  | bool (b : Bool)
  | num (n : Int)
  | str (s : String)
  | arr (items : List JsonVal)
  | obj (fields : List (String × JsonVal))

/-- `d.get(key)` on an embedded JSON object (`none` on non-objects, which in
Python would raise instead; callers below only apply it to objects). -/
def JsonVal.getKey : JsonVal → String → Option JsonVal
  | .obj fields, key => (fields.find? (fun p => p.1 == key)).map (·.2)
  | _, _ => none

mutual

/-- `json.dumps` with default separators: `", "` between items and `": "`
after keys.  String escaping is not modelled; every string rendered in this
development is escape-free. -/
def jsonDumps : JsonVal → String
  | .null => "null"
  | .bool true => "true"
  | .bool false => "false"
  | .num n => toString n
  | .str s => "\x22" ++ s ++ "\x22"
  | .arr items => "[" ++ jsonDumpsList items ++ "]"
  | .obj fields => "\x7b" ++ jsonDumpsFields fields ++ "\x7d"

def jsonDumpsList : List JsonVal → String
  | [] => ""
  | [v] => jsonDumps v
  | v :: w :: rest => jsonDumps v ++ ", " ++ jsonDumpsList (w :: rest)

def jsonDumpsFields : List (String × JsonVal) → String
  | [] => ""
  | [p] => "\x22" ++ p.1 ++ "\x22: " ++ jsonDumps p.2
  | p :: q :: rest => "\x22" ++ p.1 ++ "\x22: " ++ jsonDumps p.2 ++ ", " ++ jsonDumpsFields (q :: rest)

end

mutual

/-- Python `str()` / `repr()` of a parsed-JSON value: `None`/`True`/`False`,
single-quoted strings, `", "` item separators and `": "` after dict keys.
Quote escaping inside strings is not modelled; it is only applied to
escape-free strings here. -/
def pyStr : JsonVal → String
  | .null => "None"
  | .bool true => "True"
  | .bool false => "False"
  | .num n => toString n
  | .str s => "\x27" ++ s ++ "\x27"
  | .arr items => "[" ++ pyStrList items ++ "]"
  | .obj fields => "\x7b" ++ pyStrFields fields ++ "\x7d"

def pyStrList : List JsonVal → String
  | [] => ""
  | [v] => pyStr v
  | v :: w :: rest => pyStr v ++ ", " ++ pyStrList (w :: rest)

def pyStrFields : List (String × JsonVal) → String
  | [] => ""
  | [p] => "\x27" ++ p.1 ++ "\x27: " ++ pyStr p.2
  | p :: q :: rest =>
    "\x27" ++ p.1 ++ "\x27: " ++ pyStr p.2 ++ ", " ++ pyStrFields (q :: rest)

end

/-! A small JSON reader modelling `json.loads` on the fragment of JSON the
services exchange (no escape sequences, integer numbers). -/

/-- Skip JSON whitespace. -/
def skipWs : List Char → List Char
  | c :: rest =>
    if c = ' ' ∨ c = '\n' ∨ c = '\t' ∨ c = '\r' then skipWs rest else c :: rest
  | [] => []

/-- Read the remainder of a string literal after the opening quote. -/
def readStringRest : List Char → List Char → Option (String × List Char)
  | [], _ => none
  | c :: rest, acc =>
    if c = '\x22' then some (String.mk acc.reverse, rest)
    else if c = '\\' then none
    else readStringRest rest (c :: acc)

/-- Split a leading run of decimal digits. -/
def readDigits : List Char → List Char → (List Char × List Char)
  | c :: rest, acc =>
    if c.isDigit then readDigits rest (c :: acc) else (acc.reverse, c :: rest)
  | [], acc => (acc.reverse, [])

/-- Digits to a natural number. -/
def digitsToNat (ds : List Char) : Nat :=
  ds.foldl (fun n c => n * 10 + (c.toNat - '0'.toNat)) 0

/-- Read an integer literal. -/
def readNum : List Char → Option (JsonVal × List Char)
  | '-' :: rest =>
    match readDigits rest [] with
    | ([], _) => none
    | (ds, rest1) => some (.num (-(digitsToNat ds : Int)), rest1)
  | cs =>
    match readDigits cs [] with
    | ([], _) => none
    | (ds, rest1) => some (.num (digitsToNat ds), rest1)

mutual

/-- Read one JSON value (fuel-indexed recursive descent). -/
def readVal : Nat → List Char → Option (JsonVal × List Char)
  | 0, _ => none
  | fuel + 1, cs =>
    match skipWs cs with
    | 'n' :: 'u' :: 'l' :: 'l' :: rest => some (.null, rest)
    | 't' :: 'r' :: 'u' :: 'e' :: rest => some (.bool true, rest)
    | 'f' :: 'a' :: 'l' :: 's' :: 'e' :: rest => some (.bool false, rest)
    | '\x22' :: rest => (readStringRest rest []).map (fun p => (.str p.1, p.2))
    | '[' :: rest =>
      match skipWs rest with
      | ']' :: rest1 => some (.arr [], rest1)
      | rest1 => (readArrItems fuel rest1).map (fun p => (.arr p.1, p.2))
    | '\x7b' :: rest =>
      match skipWs rest with
      | '\x7d' :: rest1 => some (.obj [], rest1)
      | rest1 => (readObjItems fuel rest1).map (fun p => (.obj p.1, p.2))
    | rest => readNum rest

/-- Read array items up to the closing bracket. -/
def readArrItems : Nat → List Char → Option (List JsonVal × List Char)
  | 0, _ => none
  | fuel + 1, cs =>
    match readVal fuel cs with
    | none => none
    | some (v, rest) =>
      match skipWs rest with
      | ',' :: rest1 => (readArrItems fuel rest1).map (fun p => (v :: p.1, p.2))
      | ']' :: rest1 => some ([v], rest1)
      | _ => none

/-- Read object fields up to the closing brace. -/
def readObjItems : Nat → List Char → Option (List (String × JsonVal) × List Char)
  | 0, _ => none
  | fuel + 1, cs =>
    match skipWs cs with
    | '\x22' :: rest =>
      match readStringRest rest [] with
      | none => none
      | some (key, rest1) =>
        match skipWs rest1 with
        | ':' :: rest2 =>
          match readVal fuel rest2 with
          | none => none
          | some (v, rest3) =>
            match skipWs rest3 with
            | ',' :: rest4 => (readObjItems fuel rest4).map (fun p => ((key, v) :: p.1, p.2))
            | '\x7d' :: rest4 => some ([(key, v)], rest4)
            | _ => none
        | _ => none
    | _ => none

end

/-- `json.loads` on the modelled JSON fragment: `none` models a raised
`json.JSONDecodeError`. -/
def parseJson (s : String) : Option JsonVal :=
  match readVal (s.length + 1) s.toList with
  | some (v, rest) => if skipWs rest = [] then some v else none
  | none => none

/-! ### Quality Judge — `_determine_status`
(src/agents/quality_checker_agent.py, lines 427-488) -/

/-- `JudgmentStatus` from src/models/judgment.py. -/
inductive JStatus where
  | accepted
  | rejected
  | needsRevision
  deriving DecidableEq, Repr

/-- One entry of `result_data["vulnerabilities"]` as read by
`_determine_status`: `vuln.get("severity")` and `vuln.get("type")`; `none`
models an absent key. -/
structure Vuln where
  severity : Option String := none
  vtype : Option String := none
  deriving DecidableEq, Repr

/-- The JSON value at `difficulty_assessment["estimated_year6_success_rate"]`:
absent key (so `dict.get` yields the default `"50%"`), a string, or a
non-string value (the `isinstance(success_rate, str)` guard skips it). -/
inductive SRVal where
  | absent
  | str (s : String)
  | nonStr
  deriving DecidableEq, Repr

/-- The fields of the judge's LLM JSON (`result_data`) that
`_determine_status` reads.  `none` models an absent key;
`solvedAnswerIdStr` holds Python `str(result_data.get("solved_answer_id"))`
(so an absent key reads `"None"`). -/
structure QCData where
  orderIsCorrect : Option Bool := none
  blanksCorrect : Option Bool := none
  solvedAnswerIdStr : String := "None"
  verdict : Option String := none
  isTooEasy : Option Bool := none
  successRate : SRVal := .absent
  numReasoningSteps : Option Int := none
  vulnerabilities : List Vuln := []
  clarityScore : Option ℚ := none
  vulnerabilityScore : Option ℚ := none
  deriving DecidableEq, Repr

/-- Python `int()` on a trimmed-free string of chars: an optional leading
minus sign followed by at least one digit; `none` models a raised
`ValueError`.  (Python also tolerates surrounding whitespace, a leading
`+` and `_` group separators; no caller here produces those.) -/
def pyInt? : List Char → Option Int
  | '-' :: rest =>
    if rest ≠ [] ∧ rest.all (·.isDigit) then some (-(digitsToNat rest : Int)) else none
  | cs =>
    if cs ≠ [] ∧ cs.all (·.isDigit) then some ((digitsToNat cs : Int)) else none

/-- `int(success_rate.replace("%", "").split("-")[0])`:
`replace("%", "")` drops every `%`, `split("-")[0]` keeps the prefix before
the first `-`; `none` models a raised `ValueError`. -/
def parseSuccessRate (s : String) : Option Int :=
  pyInt? ((s.toList.filter (· ≠ '%')).takeWhile (· ≠ '-'))

/-- Whether the estimated-success-rate rule fires (`rate_num > 40`),
including the `"50%"` default for an absent key and the `isinstance` skip
for non-string values; a parse failure is swallowed (`except ... pass`). -/
def rateTriggers (sr : SRVal) : Bool :=
  match sr with
  | .nonStr => false
  | .absent =>
    match parseSuccessRate "50%" with
    | some n => decide (n > 40)
    | none => false
  | .str s =>
    match parseSuccessRate s with
    | some n => decide (n > 40)
    | none => false

/-- The per-vulnerability checks inside the `for vuln in ...` loop:
`severity == "critical"` → rejected, elif `severity == "major"` →
needs_revision, then `type == "too_easy"` → needs_revision. -/
def vulnRuleOne (v : Vuln) : Option JStatus :=
  if v.severity = some "critical" then some .rejected
  else if v.severity = some "major" then some .needsRevision
  else if v.vtype = some "too_easy" then some .needsRevision
  else none

/-- The vulnerability loop: the first vulnerability that matches a rule
returns immediately. -/
def vulnRule : List Vuln → Option JStatus
  | [] => none
  | v :: rest =>
    match vulnRuleOne v with
    | some s => some s
    | none => vulnRule rest

/-- The part of `_determine_status` after the answer-correctness check:
verdict, is_too_easy, success rate, num_reasoning_steps, vulnerabilities,
clarity thresholds, vulnerability_score, else accepted — in source order. -/
def statusAfterAnswer (rd : QCData) : JStatus :=
  let verdict := rd.verdict.getD "accept"
  if verdict = "reject" then .rejected
  else if verdict = "needs_revision" then .needsRevision
  else if rd.isTooEasy.getD false then .rejected
  else if rateTriggers rd.successRate then .needsRevision
  else if rd.numReasoningSteps.getD 0 < 3 then .needsRevision
  else
    match vulnRule rd.vulnerabilities with
    | some s => s
    | none =>
      if rd.clarityScore.getD 0 < (0.5 : ℚ) then .rejected
      else if rd.clarityScore.getD 0 < (0.7 : ℚ) then .needsRevision
      else if rd.vulnerabilityScore.getD 0 > (0.6 : ℚ) then .needsRevision
      else .accepted

/-- `QuestionTypeEnum.DRAG_AND_DROP.value`. -/
def dragAndDropType : String := "drag-and-drop"

/-- `QuestionTypeEnum.CLOZE.value`. -/
def clozeType : String := "cloze"

/-- `QualityCheckerAgent._determine_status(result_data, question_type)`. -/
def determineStatus (rd : QCData) (questionType : String) : JStatus :=
  if questionType = dragAndDropType then
    if rd.orderIsCorrect.getD false = false then .rejected else statusAfterAnswer rd
  else if questionType = clozeType then
    if rd.blanksCorrect.getD false = false then .rejected else statusAfterAnswer rd
  else
    if rd.solvedAnswerIdStr ≠ "1" then .rejected else statusAfterAnswer rd

/-! ### Generator — `_parse_question` choices
(src/agents/question_generator_agent.py, lines 859-901) -/

/-- One entry of the LLM's `choices` array as read by `_parse_question` and
`_parse_blueprint`; `none` models an absent key. -/
structure RawChoice where
  id : Option String := none
  text : Option String := none
  misconception : Option String := none
  deriving DecidableEq, Repr

/-- The `Choice` model fields that `_parse_question` sets
(src/models/question.py). -/
structure Choice where
  id : String
  text : String
  isCorrect : Bool
  deriving DecidableEq, Repr

/-- Mandatory MCQ choice count: 5 for math, 4 for thinking skills. -/
def numChoices (topic : String) : Nat :=
  if topic = "math" then 5 else 4

/-- The `for i, c in enumerate(data.get("choices", []))` loop: the i-th raw
choice becomes a `Choice` whose `is_correct` flag is `i == 0`. -/
def mkChoicesFrom : Nat → List RawChoice → List Choice
  | _, [] => []
  | i, c :: rest =>
    { id := c.id.getD (toString (i + 1)), text := c.text.getD "",
      isCorrect := decide (i = 0) } :: mkChoicesFrom (i + 1) rest

/-- The placeholder appended by the `while len(choices) < num_choices`
loop, where `n` is `len(choices) + 1` at append time. -/
def placeholderChoice (n : Nat) : Choice :=
  { id := toString n, text := "Option " ++ toString n, isCorrect := false }

/-- The `while len(choices) < num_choices` padding loop of
`_parse_question`. -/
def padChoices (target : Nat) (l : List Choice) : List Choice :=
  if l.length < target then
    padChoices target (l ++ [placeholderChoice (l.length + 1)])
  else l
termination_by target - l.length
decreasing_by simp; omega

/-- The full choices computation of `_parse_question`. -/
def parseQuestionChoices (topic : String) (raw : List RawChoice) : List Choice :=
  padChoices (numChoices topic) (mkChoicesFrom 0 raw)

/-- The `is_correct` flags of a choice list, in order. -/
def choiceFlags (l : List Choice) : List Bool :=
  l.map (·.isCorrect)

/-! ### Concept Registry — `ConceptGuideAgent`
(src/agents/concept_guide_agent.py) -/

/-- `BloomLevel` from src/models/curriculum.py. -/
inductive BloomLevel where
  | recall
  | comprehension
  | application
  | analysis
  | synthesis
  | evaluation
  deriving DecidableEq, Repr

/-- The fields of `AtomicConcept` (src/models/curriculum.py) that
`select_concept` reads.  The identification fields (subtopic/topic UUIDs
and names, description, image flags) are carried by the catalog but never
branched on by the selection algorithm, so they are not modelled. -/
structure AtomicConcept where
  id : String
  name : String := ""
  difficultyMin : Int := 1
  difficultyMax : Int := 3
  bloomLevels : List BloomLevel := [.application]
  commonMisconceptions : List String := []
  questionPatterns : List String := []
  deriving DecidableEq, Repr

/-- `ConceptGraph` (src/models/curriculum.py), restricted to the fields the
agent's request handlers read. -/
structure ConceptGraph where
  subtopicName : String := ""
  concepts : List AtomicConcept := []
  deriving DecidableEq, Repr

/-- The agent's mutable state: `self._concept_graphs` (a dict keyed by file
stem, embedded as an association list in insertion order) and
`self._loaded`. -/
structure RegistryState where
  conceptGraphs : List (String × ConceptGraph) := []
  loaded : Bool := false
  deriving DecidableEq, Repr

/-- `self._concept_graphs[key]` lookup (`key in dict` / `dict[key]`). -/
def lookupGraph (graphs : List (String × ConceptGraph)) (key : String) :
    Option ConceptGraph :=
  (graphs.find? (fun p => p.1 == key)).map (·.2)

/-- `self._concept_graphs[key] = graph`: overwrite an existing key,
otherwise append. -/
def dictInsert (graphs : List (String × ConceptGraph)) (key : String)
    (g : ConceptGraph) : List (String × ConceptGraph) :=
  if graphs.any (fun p => p.1 == key) then
    graphs.map (fun p => if p.1 == key then (key, g) else p)
  else graphs ++ [(key, g)]

/-- The outcome of processing one `*.json` catalog file inside
`_ensure_loaded`: either the per-file `except` clause fired (JSON decode
error, missing key, bad UUID, ...) or a graph was parsed and stored under
the file's stem. -/
inductive FileLoad where
  | failed (stem : String)
  | parsed (stem : String) (graph : ConceptGraph)
  deriving DecidableEq, Repr

/-- Whether the file's `except` clause fired. -/
def FileLoad.isFailed : FileLoad → Bool
  | .failed _ => true
  | .parsed _ _ => false

/-- The state of the configured concepts directory as seen by
`_ensure_loaded`: missing, or present with a list of files in glob order. -/
inductive ConceptsDir where
  | missing
  | present (files : List FileLoad)

/-- `ConceptGuideAgent._ensure_loaded` (lines 54-110): a no-op once
`self._loaded` is set; otherwise it walks the directory (if any), stores
each successfully parsed graph, and sets `self._loaded = True`
unconditionally — also when the directory is missing or every file fails. -/
def ensureLoaded (dir : ConceptsDir) (st : RegistryState) : RegistryState :=
  if st.loaded then st
  else
    match dir with
    | .missing => { st with loaded := true }
    | .present files =>
      { conceptGraphs :=
          files.foldl
            (fun gs f =>
              match f with
              | .failed _ => gs
              | .parsed stem g => dictInsert gs stem g)
            st.conceptGraphs,
        loaded := true }

/-- The fresh agent state set up in `__init__`. -/
def initialRegistry : RegistryState := {}

/-- A first load that stores nothing: the directory is missing, or every
catalog file hit its per-file `except` clause. -/
def loadFailedEverywhere : ConceptsDir → Bool
  | .missing => true
  | .present files => files.all (·.isFailed)

/-- `ConceptSelection` (src/models/curriculum.py). -/
structure ConceptSelection where
  concept : AtomicConcept
  targetDifficulty : Int
  targetBloomLevel : BloomLevel
  selectedMisconceptions : List String
  selectedPattern : Option String
  deriving DecidableEq, Repr

/-- The response dicts of `select_concept`: the two `success: False` error
dicts and the `success: True` selection. -/
inductive SelectResult where
  | unknownSubtopic (error : String) (available : List String)
  | noEligible (error : String)
  | ok (selection : ConceptSelection)
  deriving DecidableEq, Repr

/-- The eligibility filter of `select_concept` (lines 195-204): restrict
to concepts whose difficulty window contains `difficulty` and whose id is
not excluded; if that is empty, fall back to any non-excluded concept. -/
def eligibleConcepts (graph : ConceptGraph) (difficulty : Int)
    (excludeIds : List String) : List AtomicConcept :=
  let narrowed := graph.concepts.filter
    (fun c => decide (c.difficultyMin ≤ difficulty)
      && decide (difficulty ≤ c.difficultyMax)
      && !(excludeIds.contains c.id))
  if narrowed.isEmpty then
    graph.concepts.filter (fun c => !(excludeIds.contains c.id))
  else narrowed

/-- `ConceptGuideAgent.select_concept(subtopic, difficulty, exclude_ids)`
(lines 177-241).  The two `random.choice` draws are embedded as indices
`pickConcept` and `pickPattern` supplied by the environment and reduced
modulo the candidate-list length. -/
def selectConcept (st : RegistryState) (subtopic : String) (difficulty : Int)
    (excludeIds : List String) (pickConcept pickPattern : Nat) : SelectResult :=
  match lookupGraph st.conceptGraphs subtopic with
  | none =>
    .unknownSubtopic ("Unknown subtopic: " ++ subtopic)
      (st.conceptGraphs.map (·.1))
  | some graph =>
    let eligible := eligibleConcepts graph difficulty excludeIds
    if he : eligible = [] then .noEligible "No eligible concepts available"
    else
      let selected := eligible.get
        ⟨pickConcept % eligible.length,
         Nat.mod_lt _ (List.length_pos.mpr he)⟩
      let targetBloom : BloomLevel :=
        if difficulty ≥ 3 ∧ BloomLevel.analysis ∈ selected.bloomLevels then
          .analysis
        else if difficulty ≤ 1 ∧ BloomLevel.comprehension ∈ selected.bloomLevels then
          .comprehension
        else .application
      let selectedPattern : Option String :=
        if hp : selected.questionPatterns = [] then none
        else some (selected.questionPatterns.get
          ⟨pickPattern % selected.questionPatterns.length,
           Nat.mod_lt _ (List.length_pos.mpr hp)⟩)
      .ok { concept := selected,
            targetDifficulty := difficulty,
            targetBloomLevel := targetBloom,
            selectedMisconceptions := selected.commonMisconceptions.take 3,
            selectedPattern := selectedPattern }

/-- The response dicts of `get_concepts` when a subtopic is supplied
(lines 144-160). -/
inductive GetConceptsResult where
  | unknownSubtopic (error : String) (available : List String)
  | ok (subtopic : String) (conceptCount : Nat) (concepts : List AtomicConcept)
  deriving DecidableEq, Repr

/-- `ConceptGuideAgent.get_concepts(subtopic)` for a supplied subtopic. -/
def getConcepts (st : RegistryState) (subtopic : String) : GetConceptsResult :=
  match lookupGraph st.conceptGraphs subtopic with
  | none =>
    .unknownSubtopic ("Unknown subtopic: " ++ subtopic)
      (st.conceptGraphs.map (·.1))
  | some graph => .ok subtopic graph.concepts.length graph.concepts

/-! ### Generator — `_parse_blueprint` distractors and `revise_question`
(src/agents/question_generator_agent.py, lines 156-197 and 782-857) -/

/-- `DistractorSpec` (src/models/blueprint.py), the fields
`_parse_blueprint` sets. -/
structure DistractorSpec where
  id : String
  misconception : String
  errorType : String
  textHint : Option String := none
  deriving DecidableEq, Repr

/-- The distractor-building loop over `data.get("choices", [])[1:n+1]`:
the running value of `len(distractors)` equals the slice position `k`. -/
def mkDistractorsFrom : Nat → List RawChoice → List DistractorSpec
  | _, [] => []
  | k, c :: rest =>
    { id := c.id.getD (toString (k + 2)),
      misconception := c.misconception.getD "Plausible but incorrect",
      errorType := "conceptual",
      textHint := c.text } :: mkDistractorsFrom (k + 1) rest

/-- The `while len(distractors) < num_distractors` padding loop. -/
def padDistractors (target : Nat) (l : List DistractorSpec) :
    List DistractorSpec :=
  if l.length < target then
    padDistractors target
      (l ++ [{ id := toString (l.length + 2),
               misconception := "Plausible but incorrect",
               errorType := "conceptual" }])
  else l
termination_by target - l.length
decreasing_by simp; omega

/-- Mandatory distractor count: `4 if topic == "math" else 3`. -/
def numDistractors (topic : String) : Nat :=
  if topic = "math" then 4 else 3

/-- The LLM's generation/revision JSON, restricted to the fields the
modelled parts of `_parse_blueprint` and `_parse_question` read
(`dict.get` defaults applied at the use sites below). -/
structure RawGen where
  choices : List RawChoice := []
  requiresImage : Option Bool := none
  tags : Option (List String) := none
  deriving DecidableEq, Repr

/-- The fields of the incoming blueprint dict that `revise_question`
reads; `none` models an absent key. -/
structure BlueprintDict where
  conceptId : Option String := none
  conceptName : Option String := none
  difficultyTarget : Option Int := none
  revisionCount : Option Nat := none
  deriving DecidableEq, Repr

/-- `QuestionBlueprint` (src/models/blueprint.py) restricted to the fields
this development tracks; `revisionCount` keeps the pydantic default 0. -/
structure BlueprintOut where
  conceptId : String
  conceptName : String
  difficultyTarget : Int
  distractors : List DistractorSpec
  requiresImage : Bool
  tags : List String
  revisionCount : Nat := 0
  deriving DecidableEq, Repr

/-- `_parse_blueprint(data, concept_data, target_difficulty, topic)` for
the modelled fields: distractors come from `choices[1:num+1]` padded to the
mandatory count; `revision_count` is not passed, so it stays at the model
default 0.  (`concept_data.get("id", "unknown")` is embedded as
`Option.getD`; a present-but-`None` id, which would fail pydantic
validation in the source, is not distinguished from an absent one.) -/
def parseBlueprint (data : RawGen) (cdId cdName : Option String)
    (targetDifficulty : Int) (topic : String) : BlueprintOut :=
  { conceptId := cdId.getD "unknown",
    conceptName := cdName.getD "Unknown",
    difficultyTarget := targetDifficulty,
    distractors := padDistractors (numDistractors topic)
      (mkDistractorsFrom 0 ((data.choices.drop 1).take (numDistractors topic))),
    requiresImage := data.requiresImage.getD false,
    tags := data.tags.getD ["Thinking Skills"],
    revisionCount := 0 }

/-- The response dicts of `revise_question`. -/
inductive ReviseResult where
  | failure (error : String)
  | ok (blueprint : BlueprintOut) (questionChoices : List Choice)
      (revisionCount : Nat)
  deriving DecidableEq, Repr

/-- `QuestionGeneratorAgent.revise_question(question, blueprint, issues,
suggestions)` (lines 156-197).  The LLM reply is the `raw` oracle (`none`
models `generate_json` returning nothing).  On success the revised
blueprint's `revision_count` is set to `blueprint.get("revision_count", 0)
+ 1` (line 185); the revision path always parses with the default
thinking-skills topic.  `question`, `issues` and `suggestions` only feed
the LLM prompt. -/
def reviseQuestion (question : JsonVal) (bp : BlueprintDict)
    (issues suggestions : List String) (raw : Option RawGen) : ReviseResult :=
  match raw with
  | none => .failure "Failed to revise question"
  | some data =>
    let revisedBlueprint :=
      { parseBlueprint data bp.conceptId bp.conceptName
          (bp.difficultyTarget.getD 3) "thinking_skills" with
        revisionCount := bp.revisionCount.getD 0 + 1 }
    .ok revisedBlueprint
      (parseQuestionChoices "thinking_skills" data.choices)
      revisedBlueprint.revisionCount

/-! ### Pipeline Controller — `generate_question`
(src/agents/pipeline_controller.py, lines 42-134 and 268-292) -/

/-- The parsed reply of a successful `verify_correctness` call, as read by
the controller: `.get("verified", False)`, `.get("issues", ...)`,
`.get("suggestions", ...)`; `none` models an absent key. -/
structure VerifyRaw where
  verified : Option Bool := none
  issues : Option (List String) := none
  suggestions : Option (List String) := none
  deriving DecidableEq, Repr

/-- A quality-judgment dict as read by the controller — either a parsed
`check_quality` reply or the synthetic judgment built on a correctness
failure: `.get("accepted")`, `.get("issues", [])`, `.get("suggestions",
[])`. -/
structure QualityResp where
  accepted : Option Bool := none
  issues : Option (List String) := none
  suggestions : Option (List String) := none
  deriving DecidableEq, Repr

/-- A successful generator reply: the `blueprint` and `question` payloads
the controller stores and threads through (opaque to it). -/
structure GenResult where
  blueprint : JsonVal
  question : JsonVal

/-- The environment of one pipeline run: the parsed outcome of each
outbound call the controller can make.  `none` models every path on which
the helper returns `None` (transport error, `error` reply, missing
`success: True`, unparsable inner JSON); for `verify` it models the paths
on which `_verify_correctness` substitutes the verified-true default.
Revision, verification and judging are indexed by the attempt number. -/
structure Oracles where
  select : Option JsonVal := none
  gen : Option GenResult := none
  revise : Nat → Option GenResult := fun _ => none
  verify : Nat → Option VerifyRaw := fun _ => none
  quality : Nat → Option QualityResp := fun _ => none

/-- `PipelineState` (pipeline_controller.py lines 21-32). -/
structure PState where
  conceptSelection : Option JsonVal := none
  blueprint : Option JsonVal := none
  question : Option JsonVal := none
  qualityResult : Option QualityResp := none
  revisionCount : Nat := 0
  errors : List String := []
  accepted : Bool := false

/-- How many times each outbound helper has been invoked. -/
structure CallCounts where
  genCalls : Nat := 0
  reviseCalls : Nat := 0
  verifyCalls : Nat := 0
  judgeCalls : Nat := 0
  deriving DecidableEq, Repr

/-- `_verify_correctness` (lines 268-292): a failed call — exception,
error reply, or a reply without `success: True` — is replaced by
`{"verified": True, "issues": [], "suggestions": []}` so the pipeline is
not blocked. -/
def verifyOutcome : Option VerifyRaw → VerifyRaw
  | some vr => vr
  | none => { verified := some true, issues := some [], suggestions := some [] }

/-- The synthetic judgment the controller builds when the correctness
check reports `verified: False` (lines 102-106). -/
def syntheticJudgment (vr : VerifyRaw) : QualityResp :=
  { accepted := some false,
    issues := some (vr.issues.getD ["Answer verification failed"]),
    suggestions := some (vr.suggestions.getD []) }

/-- Error string appended on a failed generation/revision (line 86). -/
def genFailError (attempt : Nat) : String :=
  "Failed to generate question (attempt " ++ toString (attempt + 1) ++ ")"

/-- Error string appended on a failed quality check (line 118). -/
def qualityFailError (attempt : Nat) : String :=
  "Quality check failed (attempt " ++ toString (attempt + 1) ++ ")"

/-- The error recorded by the outer `except` when the revision-path
logging reads `state.quality_result.get(...)` while `quality_result` is
`None` (line 76): Python raises `AttributeError` with this text. -/
def pyNoneGetError : String :=
  "Pipeline error: \x27NoneType\x27 object has no attribute \x27get\x27"

/-- Outcome of one iteration of the `for attempt in range(...)` loop:
an uncaught exception (handled by the outer `except`), a `continue`/fall-
through to the next attempt, or the accepted `break`. -/
inductive StepOut where
  | crash (st : PState) (cnt : CallCounts)
  | next (st : PState) (cnt : CallCounts)
  | stop (st : PState) (cnt : CallCounts)

/-- The state carried out of a loop iteration. -/
def StepOut.state : StepOut → PState
  | .crash st _ => st
  | .next st _ => st
  | .stop st _ => st

/-- The call counts carried out of a loop iteration. -/
def StepOut.counts : StepOut → CallCounts
  | .crash _ cnt => cnt
  | .next _ cnt => cnt
  | .stop _ cnt => cnt

/-- Attempt 0 generates, later attempts revise. -/
def bumpGen (attempt : Nat) (cnt : CallCounts) : CallCounts :=
  if attempt = 0 then { cnt with genCalls := cnt.genCalls + 1 }
  else { cnt with reviseCalls := cnt.reviseCalls + 1 }

/-- One `verify_correctness` call. -/
def bumpVerify (cnt : CallCounts) : CallCounts :=
  { cnt with verifyCalls := cnt.verifyCalls + 1 }

/-- One `check_quality` call. -/
def bumpJudge (cnt : CallCounts) : CallCounts :=
  { cnt with judgeCalls := cnt.judgeCalls + 1 }

/-- One iteration of the controller's attempt loop (lines 67-128).
On attempt 0 it generates; on a later attempt it revises — but if
`quality_result` is `None` there, the logging f-string raises before the
revise call is made (`crash`).  A failed generation appends an error and
continues.  Then correctness runs; `verified` false installs the
synthetic judgment and continues without judging.  Otherwise the judge
runs; a failed judge call clears `quality_result` and continues; an
accepted judgment stops the loop; anything else continues. -/
def stepIter (orc : Oracles) (attempt : Nat) (st0 : PState)
    (cnt0 : CallCounts) : StepOut :=
  let st := { st0 with revisionCount := attempt }
  let genCall : Option (Option GenResult) :=
    if attempt = 0 then some orc.gen
    else
      match st.qualityResult with
      | none => none
      | some _ => some (orc.revise attempt)
  match genCall with
  | none => .crash { st with errors := st.errors ++ [pyNoneGetError] } cnt0
  | some gres =>
    let cnt := bumpGen attempt cnt0
    match gres with
    | none => .next { st with errors := st.errors ++ [genFailError attempt] } cnt
    | some g =>
      let st := { st with blueprint := some g.blueprint,
                          question := some g.question }
      let cnt := bumpVerify cnt
      let vr := verifyOutcome (orc.verify attempt)
      if vr.verified.getD false = false then
        .next { st with qualityResult := some (syntheticJudgment vr) } cnt
      else
        let cnt := bumpJudge cnt
        match orc.quality attempt with
        | none =>
          .next { st with qualityResult := none,
                          errors := st.errors ++ [qualityFailError attempt] } cnt
        | some q =>
          let st := { st with qualityResult := some q }
          if q.accepted.getD false then .stop { st with accepted := true } cnt
          else .next st cnt

/-- The `for attempt in range(max_revisions + 1)` loop: `rem` iterations
remain, starting at `attempt`. -/
def runLoop (orc : Oracles) : Nat → Nat → PState → CallCounts →
    PState × CallCounts
  | _, 0, st, cnt => (st, cnt)
  | attempt, rem + 1, st, cnt =>
    match stepIter orc attempt st cnt with
    | .crash st1 cnt1 => (st1, cnt1)
    | .stop st1 cnt1 => (st1, cnt1)
    | .next st1 cnt1 => runLoop orc (attempt + 1) rem st1 cnt1

/-- `PipelineResult` (src/models/judgment.py lines 148-159), with the
payload fields kept opaque. -/
structure PipelineResult where
  accepted : Bool
  question : Option JsonVal
  conceptId : Option JsonVal
  revisionCount : Nat
  judgment : Option QualityResp
  errors : List String

/-- `_create_result` (lines 339-349). -/
def createResult (st : PState) : PipelineResult :=
  { accepted := st.accepted,
    question := st.question,
    conceptId := st.conceptSelection.bind
      (fun s => ((s.getKey "concept").getD (JsonVal.obj [])).getKey "id"),
    revisionCount := st.revisionCount,
    judgment := st.qualityResult,
    errors := st.errors }

/-- `PipelineController.generate_question` (lines 42-134) with
`max_revisions` taken from the configuration: select a concept (a failure
records an error and returns), then run the attempt loop. -/
def generateQuestion (orc : Oracles) (maxRevisions : Nat) :
    PipelineResult × CallCounts :=
  match orc.select with
  | none => (createResult { errors := ["Failed to select concept"] }, {})
  | some sel =>
    let out := runLoop orc 0 (maxRevisions + 1) { conceptSelection := some sel } {}
    (createResult out.1, out.2)

/-- Truthiness of `state.quality_result.get("accepted")` for an optional
judgment dict (a missing dict or key reads as false). -/
def qualityAccepted : Option QualityResp → Bool
  | some q => q.accepted.getD false
  | none => false

/-! ### Transport — service host response text and client envelope
(src/a2a_local/server.py lines 69-88, src/a2a_local/client.py
lines 73-119) -/

/-- `BaseAgentExecutor.execute` line 73: the response message's
`parts[0].text` is built with `TextPart(text=str(result))` — Python
`str()` of the handler's result dict. -/
def hostResponseText (result : JsonVal) : String := pyStr result

/-- The wire contract of §6 of the spec for the same text: the handler's
result serialized as JSON (what `json.loads` in
`PipelineController._parse_response` expects to receive). -/
def canonicalResponseText (result : JsonVal) : String := jsonDumps result

/-- `A2AClient.send_task` (client.py lines 74-90): the JSON-RPC request
body, with the task text nested at `params.message.parts[0].text`. -/
def encodeRequest (messageText : String) (messageId : String) : JsonVal :=
  .obj [("jsonrpc", .str "2.0"),
        ("method", .str "message/send"),
        ("params", .obj [
          ("message", .obj [
            ("role", .str "user"),
            ("message_id", .str messageId),
            ("parts", .arr [.obj [("text", .str messageText)]])]),
          ("metadata", .obj [])]),
        ("id", .num 1)]

/-! ## Theorems -/

/-! ### Generator choice handling (C2) -/

-- The enumerate loop produces one `Choice` per raw choice.
theorem mkChoicesFrom_length (i : Nat) (raw : List RawChoice) :
    (mkChoicesFrom i raw).length = raw.length := by
  induction raw generalizing i with
  | nil => rfl
  | cons c rest ih => simp [mkChoicesFrom, ih]

-- Starting the enumerate loop at a positive index marks nothing correct.
theorem choiceFlags_mkChoicesFrom_pos (i : Nat) (raw : List RawChoice) :
    choiceFlags (mkChoicesFrom (i + 1) raw) = List.replicate raw.length false := by
  induction raw generalizing i with
  | nil => rfl
  | cons c rest ih =>
    simp [choiceFlags, mkChoicesFrom, List.replicate_succ, ← ih (i + 1)]

-- The padding loop stops at `max` of the incoming length and the target.
theorem padChoices_length (target : Nat) (l : List Choice) :
    (padChoices target l).length = max l.length target := by
  generalize hn : target - l.length = n
  induction n generalizing l with
  | zero => rw [padChoices, if_neg (by omega)]; omega
  | succ n ih =>
    rw [padChoices, if_pos (by omega)]
    rw [ih (l ++ [placeholderChoice (l.length + 1)]) (by simp; omega)]
    simp; omega

-- Padding appends only incorrect placeholder choices.
theorem padChoices_flags (target : Nat) (l : List Choice) :
    choiceFlags (padChoices target l)
      = choiceFlags l ++ List.replicate (target - l.length) false := by
  generalize hn : target - l.length = n
  induction n generalizing l with
  | zero => rw [padChoices, if_neg (by omega)]; simp
  | succ n ih =>
    rw [padChoices, if_pos (by omega)]
    rw [ih _ (by simp; omega)]
    simp [choiceFlags, placeholderChoice, List.replicate_succ]

/-- C2 (amended): for every raw LLM choices list, `_parse_question`
returns `max(len(raw), mandatory)` choices (so an over-long list is kept,
not trimmed to the mandatory 4/5); when the raw list is non-empty exactly
the first choice is marked correct and all others incorrect, and when it
is empty the result is mandatory-many placeholders, none of which is
marked correct. -/
theorem C2_choices_shape (topic : String) (raw : List RawChoice) :
    (parseQuestionChoices topic raw).length = max raw.length (numChoices topic)
  ∧ choiceFlags (parseQuestionChoices topic raw)
      = (if raw.isEmpty then List.replicate (numChoices topic) false
         else true :: List.replicate (max raw.length (numChoices topic) - 1) false) := by
  constructor
  · rw [parseQuestionChoices, padChoices_length, mkChoicesFrom_length]
  · rw [parseQuestionChoices, padChoices_flags, mkChoicesFrom_length]
    cases raw with
    | nil => simp [choiceFlags, mkChoicesFrom]
    | cons c rest =>
      have h1 : choiceFlags (mkChoicesFrom 0 (c :: rest))
          = true :: List.replicate rest.length false := by
        simp [choiceFlags, mkChoicesFrom,
          ← choiceFlags_mkChoicesFrom_pos 0 rest]
      rw [h1]
      simp only [List.isEmpty_cons, Bool.false_eq_true, if_false, List.cons_append]
      congr 1
      rw [← List.replicate_add]
      congr 1
      simp
      omega

/-- C2 counterexample: with an empty raw choices list the thinking-skills
result has 4 choices but none of them carries the correct flag (the claim
asserts the first is correct and exactly one is marked), and with 5 raw
choices the thinking-skills result has 5 choices, not exactly 4. -/
theorem C2_counterexample :
    (parseQuestionChoices "thinking_skills" []).length = 4
  ∧ choiceFlags (parseQuestionChoices "thinking_skills" [])
      = [false, false, false, false]
  ∧ (parseQuestionChoices "thinking_skills" [{}, {}, {}, {}, {}]).length = 5 := by
  refine ⟨?_, ?_, ?_⟩
  · rw [parseQuestionChoices, padChoices_length, mkChoicesFrom_length]
    simp +decide [numChoices]
  · rw [parseQuestionChoices, padChoices_flags]
    simp +decide [numChoices, choiceFlags, mkChoicesFrom, List.replicate]
  · rw [parseQuestionChoices, padChoices_length, mkChoicesFrom_length]
    simp +decide [numChoices]

/-! ### Quality Judge status derivation (C1) -/

/-- C1 (amended): in `_determine_status` for an MCQ with a matching solved
answer, the LLM `verdict` field is an additional rule evaluated right
after the answer check (`"reject"` forces rejected); and when the verdict,
too-easy and success-rate rules all pass, `num_reasoning_steps < 3`
forces `needs_revision` for every vulnerability list — the reasoning-steps
rule is evaluated before the vulnerability rule, not after it as the spec
orders them. -/
theorem C1_mcq_rule_order (rd : QCData) (hans : rd.solvedAnswerIdStr = "1") :
    (rd.verdict.getD "accept" = "reject" →
      determineStatus rd "multiple-choice" = .rejected)
  ∧ (rd.verdict.getD "accept" ≠ "reject" →
     rd.verdict.getD "accept" ≠ "needs_revision" →
     rd.isTooEasy.getD false = false →
     rateTriggers rd.successRate = false →
     rd.numReasoningSteps.getD 0 < 3 →
      determineStatus rd "multiple-choice" = .needsRevision) := by
  have hmc1 : ¬ ("multiple-choice" = dragAndDropType) := by decide
  have hmc2 : ¬ ("multiple-choice" = clozeType) := by decide
  constructor
  · intro hv
    simp [determineStatus, hmc1, hmc2, hans, statusAfterAnswer, hv]
  · intro hv1 hv2 he hr hs
    simp [determineStatus, hmc1, hmc2, hans, statusAfterAnswer, hv1, hv2, he,
      hr, hs]

/-- C1 counterexample: a critical vulnerability together with
`num_reasoning_steps = 1` yields `needs_revision`, not the `rejected` the
claim derives from the spec's rule order; and the `verdict` field — not
one of the claim's seven rules — changes the status on otherwise
identical inputs (`"reject"` vs absent gives rejected vs accepted). -/
theorem C1_counterexample :
    determineStatus { solvedAnswerIdStr := "1", successRate := .str "20-30%",
                      numReasoningSteps := some 1,
                      vulnerabilities := [{ severity := some "critical" }] }
      "multiple-choice" = .needsRevision
  ∧ determineStatus { solvedAnswerIdStr := "1", verdict := some "reject",
                      successRate := .str "20%", numReasoningSteps := some 5,
                      clarityScore := some 0.9 } "multiple-choice" = .rejected
  ∧ determineStatus { solvedAnswerIdStr := "1",
                      successRate := .str "20%", numReasoningSteps := some 5,
                      clarityScore := some 0.9 } "multiple-choice" = .accepted := by
  refine ⟨rfl, rfl, ?_⟩
  norm_num [determineStatus, statusAfterAnswer, vulnRule, rateTriggers,
            parseSuccessRate, pyInt?, digitsToNat, dragAndDropType, clozeType]
  simp +decide only []

/-- C1 witness: `C1_mcq_rule_order` applied to a concrete judge reply with
a critical vulnerability and 2 reasoning steps. -/
theorem C1_mcq_rule_order_witness :
    determineStatus { solvedAnswerIdStr := "1", successRate := .str "25%",
                      numReasoningSteps := some 2,
                      vulnerabilities := [{ severity := some "critical" }] }
      "multiple-choice" = .needsRevision :=
  (C1_mcq_rule_order _ rfl).2 (by decide) (by decide) rfl (by rfl) (by decide)

/-! ### Concept Registry (C3, C9, C10) -/

-- Both eligibility filters drop every excluded id.
theorem eligibleConcepts_not_excluded (graph : ConceptGraph) (difficulty : Int)
    (excl : List String) (c : AtomicConcept)
    (hc : c ∈ eligibleConcepts graph difficulty excl) : c.id ∉ excl := by
  simp only [eligibleConcepts] at hc
  intro hmem
  split at hc <;>
  · have := (List.mem_filter.mp hc).2
    simp [hmem] at this

-- Excluding the whole catalog leaves both filters empty.
theorem eligibleConcepts_all_excluded (graph : ConceptGraph) (difficulty : Int)
    (excl : List String) (hx : ∀ c ∈ graph.concepts, c.id ∈ excl) :
    eligibleConcepts graph difficulty excl = [] := by
  have h1 : graph.concepts.filter (fun c => !(excl.contains c.id)) = [] := by
    rw [List.filter_eq_nil_iff]
    intro c hc
    simp [hx c hc]
  have h2 : graph.concepts.filter
      (fun c => decide (c.difficultyMin ≤ difficulty)
        && decide (difficulty ≤ c.difficultyMax)
        && !(excl.contains c.id)) = [] := by
    rw [List.filter_eq_nil_iff]
    intro c hc
    simp [hx c hc]
  rw [eligibleConcepts]
  rw [h2, if_pos (by simp)]
  exact h1

/-- C3 (amended): for every loaded subtopic, `select_concept` with an
exclusion set covering all of that subtopic's concept ids returns the
`success: False` no-candidate response — whose error string is the literal
"No eligible concepts available", not the tag "no_eligible" the claim
names. -/
theorem C3_all_excluded (st : RegistryState) (subtopic : String)
    (graph : ConceptGraph) (difficulty : Int) (excl : List String)
    (p1 p2 : Nat)
    (hg : lookupGraph st.conceptGraphs subtopic = some graph)
    (hx : ∀ c ∈ graph.concepts, c.id ∈ excl) :
    selectConcept st subtopic difficulty excl p1 p2
      = .noEligible "No eligible concepts available" := by
  unfold selectConcept
  rw [hg]
  simp [eligibleConcepts_all_excluded graph difficulty excl hx]

/-- C3 counterexample: on a one-concept catalog with that concept
excluded, the error field is "No eligible concepts available", which is
not the exact tag "no_eligible" the claim requires. -/
theorem C3_counterexample :
    selectConcept
      { conceptGraphs := [("x", { subtopicName := "X", concepts := [{ id := "c1" }] })],
        loaded := true }
      "x" 3 ["c1"] 0 0
      = .noEligible "No eligible concepts available"
  ∧ "No eligible concepts available" ≠ "no_eligible" := by
  exact ⟨rfl, by decide⟩

/-- C3 witness: `C3_all_excluded` applied to a concrete two-concept
catalog with both ids excluded. -/
theorem C3_witness :
    selectConcept
      { conceptGraphs := [("y", { subtopicName := "Y", concepts := [{ id := "a" }, { id := "b" }] })],
        loaded := true }
      "y" 2 ["a", "b"] 3 0
      = .noEligible "No eligible concepts available" :=
  C3_all_excluded _ "y" _ 2 ["a", "b"] 3 0 rfl (by decide)

/-- C9: `select_concept` never returns a concept whose id is in
`exclude_ids` — unconditionally, since both the difficulty-filtered set
and the relaxed fallback set exclude `exclude_ids` before the random
draw. -/
theorem C9_excluded_never_selected (st : RegistryState) (subtopic : String)
    (difficulty : Int) (excl : List String) (p1 p2 : Nat)
    (sel : ConceptSelection)
    (h : selectConcept st subtopic difficulty excl p1 p2 = .ok sel) :
    sel.concept.id ∉ excl := by
  unfold selectConcept at h
  cases hg : lookupGraph st.conceptGraphs subtopic with
  | none => rw [hg] at h; simp at h
  | some graph =>
    rw [hg] at h
    simp only [] at h
    by_cases he : eligibleConcepts graph difficulty excl = []
    · rw [dif_pos he] at h; simp at h
    · rw [dif_neg he] at h
      simp only [SelectResult.ok.injEq] at h
      have hmem : sel.concept ∈ eligibleConcepts graph difficulty excl := by
        rw [← h]
        exact List.get_mem _ _ _
      exact eligibleConcepts_not_excluded graph difficulty excl _ hmem

/-- C9 witness: `C9_excluded_never_selected` applied to a concrete
catalog where the non-excluded concept `k1` is selected. -/
theorem C9_witness :
    selectConcept
      { conceptGraphs := [("z", { subtopicName := "Z", concepts := [{ id := "k1" }, { id := "k2" }] })],
        loaded := true }
      "z" 2 ["k2"] 0 0
      = .ok { concept := { id := "k1" },
              targetDifficulty := 2,
              targetBloomLevel := .application,
              selectedMisconceptions := [],
              selectedPattern := none }
  ∧ ("k1" : String) ∉ ["k2"] :=
  ⟨rfl,
   C9_excluded_never_selected
     { conceptGraphs := [("z", { subtopicName := "Z", concepts := [{ id := "k1" }, { id := "k2" }] })],
       loaded := true }
     "z" 2 ["k2"] 0 0
     { concept := { id := "k1" },
       targetDifficulty := 2,
       targetBloomLevel := .application,
       selectedMisconceptions := [],
       selectedPattern := none }
     rfl⟩

-- A load in which every file failed stores nothing.
theorem loadFiles_all_failed (files : List FileLoad)
    (gs : List (String × ConceptGraph)) (h : files.all (·.isFailed) = true) :
    files.foldl
      (fun gs f =>
        match f with
        | .failed _ => gs
        | .parsed stem g => dictInsert gs stem g) gs = gs := by
  induction files generalizing gs with
  | nil => rfl
  | cons f rest ih =>
    cases f with
    | failed s =>
      simp only [List.all_cons, Bool.and_eq_true] at h
      exact ih gs h.2
    | parsed s g =>
      simp [FileLoad.isFailed] at h

-- A fully failed first load latches with an empty catalog.
theorem ensureLoaded_failed (dir : ConceptsDir)
    (h : loadFailedEverywhere dir = true) :
    ensureLoaded dir initialRegistry
      = { conceptGraphs := [], loaded := true } := by
  cases dir with
  | missing => rfl
  | present files =>
    simp only [loadFailedEverywhere] at h
    simp [ensureLoaded, initialRegistry, loadFiles_all_failed files [] h]

/-- C10: the lazy loader latches permanently on its first run even on
failure — after any first `_ensure_loaded` the `_loaded` flag is set and
every later `_ensure_loaded` is a no-op for any directory state; and when
the directory was missing or every catalog file failed to parse, every
subsequent `select_concept` or `get_concepts` call for any subtopic
returns the `success: False` "Unknown subtopic" response with an empty
`available` list. -/
theorem C10_lazy_load_latches (dir : ConceptsDir) :
    (ensureLoaded dir initialRegistry).loaded = true
  ∧ (∀ dir2, ensureLoaded dir2 (ensureLoaded dir initialRegistry)
       = ensureLoaded dir initialRegistry)
  ∧ (loadFailedEverywhere dir = true →
      ∀ (subtopic : String) (difficulty : Int) (excl : List String) (p1 p2 : Nat),
        selectConcept (ensureLoaded dir initialRegistry) subtopic difficulty excl p1 p2
          = .unknownSubtopic ("Unknown subtopic: " ++ subtopic) []
      ∧ getConcepts (ensureLoaded dir initialRegistry) subtopic
          = .unknownSubtopic ("Unknown subtopic: " ++ subtopic) []) := by
  have hloaded : (ensureLoaded dir initialRegistry).loaded = true := by
    cases dir <;> simp [ensureLoaded, initialRegistry]
  refine ⟨hloaded, ?_, ?_⟩
  · intro dir2
    rw [ensureLoaded.eq_def, if_pos hloaded]
  · intro hfail subtopic difficulty excl p1 p2
    rw [ensureLoaded_failed dir hfail]
    constructor
    · rfl
    · rfl

/-- C10 witness: `C10_lazy_load_latches` applied to a directory with one
unparsable file, queried for the subtopic "analogies". -/
theorem C10_witness :
    (ensureLoaded (.present [.failed "broken"]) initialRegistry).loaded = true
  ∧ ensureLoaded .missing (ensureLoaded (.present [.failed "broken"]) initialRegistry)
      = ensureLoaded (.present [.failed "broken"]) initialRegistry
  ∧ selectConcept (ensureLoaded (.present [.failed "broken"]) initialRegistry)
      "analogies" 3 [] 0 0
      = .unknownSubtopic ("Unknown subtopic: " ++ "analogies") []
  ∧ getConcepts (ensureLoaded (.present [.failed "broken"]) initialRegistry) "analogies"
      = .unknownSubtopic ("Unknown subtopic: " ++ "analogies") [] := by
  obtain ⟨h1, h2, h3⟩ := C10_lazy_load_latches (.present [.failed "broken"])
  exact ⟨h1, h2 .missing, (h3 rfl "analogies" 3 [] 0 0).1,
    (h3 rfl "analogies" 3 [] 0 0).2⟩

/-! ### Pipeline Controller (C4, C5, C6) -/

-- Generation/revision bookkeeping never touches the judge counter.
theorem bumpGen_judge (attempt : Nat) (cnt : CallCounts) :
    (bumpGen attempt cnt).judgeCalls = cnt.judgeCalls := by
  unfold bumpGen; split <;> rfl

-- Verification bookkeeping never touches the judge counter.
theorem bumpVerify_judge (cnt : CallCounts) :
    (bumpVerify cnt).judgeCalls = cnt.judgeCalls := rfl

-- Judging bumps the judge counter by one.
theorem bumpJudge_judge (cnt : CallCounts) :
    (bumpJudge cnt).judgeCalls = cnt.judgeCalls + 1 := rfl

-- Bookkeeping for attempt 0 never touches the revise counter.
theorem bumpGen_zero_revise (cnt : CallCounts) :
    (bumpGen 0 cnt).reviseCalls = cnt.reviseCalls := rfl

-- Verification bookkeeping never touches the revise counter.
theorem bumpVerify_revise (cnt : CallCounts) :
    (bumpVerify cnt).reviseCalls = cnt.reviseCalls := rfl

-- Judging bookkeeping never touches the revise counter.
theorem bumpJudge_revise (cnt : CallCounts) :
    (bumpJudge cnt).reviseCalls = cnt.reviseCalls := rfl

-- One loop iteration invokes the judge at most once.
theorem stepIter_judge_le (orc : Oracles) (attempt : Nat) (st : PState)
    (cnt : CallCounts) :
    (stepIter orc attempt st cnt).counts.judgeCalls ≤ cnt.judgeCalls + 1 := by
  simp only [stepIter]
  repeat' split
  all_goals
    simp [StepOut.counts, bumpGen_judge, bumpVerify_judge, bumpJudge_judge]

-- Attempt 0 never invokes the revision helper.
theorem stepIter_zero_revise (orc : Oracles) (st : PState) (cnt : CallCounts) :
    (stepIter orc 0 st cnt).counts.reviseCalls = cnt.reviseCalls := by
  simp only [stepIter]
  repeat' split
  all_goals
    simp_all [StepOut.counts, bumpGen, bumpVerify, bumpJudge]

-- Only an accepted judgment can set the accepted flag.
theorem stepIter_accept_state (orc : Oracles) (attempt : Nat) (st : PState)
    (cnt : CallCounts) (hst : st.accepted = false)
    (hq : qualityAccepted (orc.quality attempt) = false) :
    (stepIter orc attempt st cnt).state.accepted = false := by
  simp only [stepIter]
  repeat' split
  all_goals simp_all [StepOut.state, qualityAccepted]

-- The attempt loop invokes the judge at most once per remaining iteration.
theorem runLoop_judge_le (orc : Oracles) (rem : Nat) :
    ∀ (attempt : Nat) (st : PState) (cnt : CallCounts),
      (runLoop orc attempt rem st cnt).2.judgeCalls ≤ cnt.judgeCalls + rem := by
  induction rem with
  | zero => intro attempt st cnt; simp [runLoop]
  | succ n ih =>
    intro attempt st cnt
    have hstep := stepIter_judge_le orc attempt st cnt
    simp only [runLoop]
    cases h : stepIter orc attempt st cnt with
    | crash st1 cnt1 =>
      rw [h] at hstep; simp [StepOut.counts] at hstep; simp; omega
    | stop st1 cnt1 =>
      rw [h] at hstep; simp [StepOut.counts] at hstep; simp; omega
    | next st1 cnt1 =>
      rw [h] at hstep; simp [StepOut.counts] at hstep
      have h2 := ih (attempt + 1) st1 cnt1
      simp
      omega

/-- C4: one pipeline run with `max_revisions = N` invokes `check_quality`
at most `N + 1` times; and with `N = 0` the controller makes no revision
call and the result is not accepted whenever the first judgment is not
accepted. -/
theorem C4_judge_budget (orc : Oracles) (maxRevisions : Nat) :
    (generateQuestion orc maxRevisions).2.judgeCalls ≤ maxRevisions + 1
  ∧ (maxRevisions = 0 →
      (generateQuestion orc maxRevisions).2.reviseCalls = 0
    ∧ (qualityAccepted (orc.quality 0) = false →
        (generateQuestion orc maxRevisions).1.accepted = false)) := by
  constructor
  · cases hs : orc.select with
    | none => simp [generateQuestion, hs]
    | some sel =>
      simp only [generateQuestion, hs]
      simpa using runLoop_judge_le orc (maxRevisions + 1) 0
        { conceptSelection := some sel } {}
  · intro h0
    subst h0
    constructor
    · cases hs : orc.select with
      | none => simp [generateQuestion, hs]
      | some sel =>
        simp only [generateQuestion, hs]
        have hz := stepIter_zero_revise orc { conceptSelection := some sel } {}
        simp only [runLoop]
        cases hstep : stepIter orc 0 { conceptSelection := some sel } {} with
        | crash st1 cnt1 =>
          rw [hstep] at hz; simpa [StepOut.counts] using hz
        | stop st1 cnt1 =>
          rw [hstep] at hz; simpa [StepOut.counts] using hz
        | next st1 cnt1 =>
          rw [hstep] at hz; simp only [runLoop]; simpa [StepOut.counts] using hz
    · intro hq
      cases hs : orc.select with
      | none => simp [generateQuestion, hs, createResult]
      | some sel =>
        simp only [generateQuestion, hs]
        have ha := stepIter_accept_state orc 0 { conceptSelection := some sel } {}
          rfl hq
        simp only [runLoop]
        cases hstep : stepIter orc 0 { conceptSelection := some sel } {} with
        | crash st1 cnt1 =>
          rw [hstep] at ha; simpa [StepOut.state, createResult] using ha
        | stop st1 cnt1 =>
          rw [hstep] at ha; simpa [StepOut.state, createResult] using ha
        | next st1 cnt1 =>
          rw [hstep] at ha; simp only [runLoop]
          simpa [StepOut.state, createResult] using ha

/-- C4 witness: `C4_judge_budget` applied to the empty oracle environment
with `max_revisions = 0`. -/
theorem C4_witness :
    (generateQuestion {} 0).2.judgeCalls ≤ 0 + 1
  ∧ (generateQuestion {} 0).2.reviseCalls = 0
  ∧ (generateQuestion {} 0).1.accepted = false :=
  ⟨(C4_judge_budget {} 0).1, ((C4_judge_budget {} 0).2 rfl).1,
   ((C4_judge_budget {} 0).2 rfl).2 rfl⟩

/-- C5: when the correctness check reports `verified: false` at an
attempt whose generation succeeded, the iteration does not terminate the
pipeline — it installs the synthetic judgment
`{accepted: false, issues, suggestions}` built from the verifier's
feedback, skips the judge, and the loop continues into the next attempt
with the attempt counter incremented; and when the verifier call itself
fails, the substituted `{verified: true, issues: []}` sends the iteration
on to the quality check (the judge counter is incremented). -/
theorem C5_correctness_paths (orc : Oracles) (attempt : Nat) (st : PState)
    (cnt : CallCounts) (g : GenResult) (vr : VerifyRaw)
    (hq : attempt = 0 ∨ st.qualityResult ≠ none)
    (hgen : (if attempt = 0 then orc.gen else orc.revise attempt) = some g) :
    (orc.verify attempt = some vr → vr.verified.getD false = false →
      stepIter orc attempt st cnt
        = .next { st with revisionCount := attempt,
                          blueprint := some g.blueprint,
                          question := some g.question,
                          qualityResult := some (syntheticJudgment vr) }
            (bumpVerify (bumpGen attempt cnt))
      ∧ (bumpVerify (bumpGen attempt cnt)).judgeCalls = cnt.judgeCalls)
  ∧ (orc.verify attempt = none →
      (stepIter orc attempt st cnt).counts.judgeCalls = cnt.judgeCalls + 1)
  ∧ (∀ (rem : Nat) (st1 : PState) (cnt1 : CallCounts),
       stepIter orc attempt st cnt = .next st1 cnt1 →
       runLoop orc attempt (rem + 1) st cnt
         = runLoop orc (attempt + 1) rem st1 cnt1) := by
  refine ⟨?_, ?_, ?_⟩
  · intro hv hvf
    by_cases h0 : attempt = 0
    · subst h0
      have hgen2 : orc.gen = some g := by simpa using hgen
      constructor
      · simp [stepIter, hgen2, hv, verifyOutcome, hvf]
      · simp [bumpVerify_judge, bumpGen_judge]
    · rcases hq with h0' | hsome
      · exact absurd h0' h0
      · rcases hqr : st.qualityResult with _ | q
        · exact absurd hqr hsome
        · simp only [if_neg h0] at hgen
          constructor
          · simp [stepIter, h0, hqr, hgen, hv, verifyOutcome, hvf]
          · simp [bumpVerify_judge, bumpGen_judge]
  · intro hv
    by_cases h0 : attempt = 0
    · subst h0
      have hgen2 : orc.gen = some g := by simpa using hgen
      simp only [stepIter, hgen2, hv, verifyOutcome]
      cases hql : orc.quality 0 with
      | none =>
        simp [hql, StepOut.counts, bumpJudge_judge, bumpVerify_judge,
          bumpGen_judge]
      | some q =>
        by_cases hacc : q.accepted.getD false = true <;>
          simp [hql, hacc, StepOut.counts, bumpJudge_judge, bumpVerify_judge,
            bumpGen_judge]
    · rcases hq with h0' | hsome
      · exact absurd h0' h0
      · rcases hqr : st.qualityResult with _ | q
        · exact absurd hqr hsome
        · simp only [if_neg h0] at hgen
          simp only [stepIter, h0, hqr, hgen, verifyOutcome, hv]
          cases hql : orc.quality attempt with
          | none =>
            simp [h0, hql, StepOut.counts, bumpJudge_judge, bumpVerify_judge,
              bumpGen_judge]
          | some q2 =>
            by_cases hacc : q2.accepted.getD false = true <;>
              simp [h0, hql, hacc, StepOut.counts, bumpJudge_judge,
                bumpVerify_judge, bumpGen_judge]
  · intro rem st1 cnt1 hnext
    simp only [runLoop, hnext]

/-- C5 witness: `C5_correctness_paths` applied at attempt 0 — once to an
environment whose verifier reports `verified: false` with the issue
"Answer inconsistent with setup", and once to one whose verifier call
fails. -/
theorem C5_witness :
    stepIter
      { gen := some ⟨.obj [], .obj []⟩,
        verify := fun _ => some { verified := some false,
                                  issues := some ["Answer inconsistent with setup"] } }
      0 {} {}
      = .next { revisionCount := 0, blueprint := some (.obj []),
                question := some (.obj []),
                qualityResult := some (syntheticJudgment
                  { verified := some false,
                    issues := some ["Answer inconsistent with setup"] }) }
          (bumpVerify (bumpGen 0 {}))
  ∧ (stepIter { gen := some ⟨.obj [], .obj []⟩ } 0 {} {}).counts.judgeCalls
      = ({} : CallCounts).judgeCalls + 1 := by
  constructor
  · exact ((C5_correctness_paths
      { gen := some ⟨.obj [], .obj []⟩,
        verify := fun _ => some { verified := some false,
                                  issues := some ["Answer inconsistent with setup"] } }
      0 {} {}
      ⟨.obj [], .obj []⟩
      { verified := some false, issues := some ["Answer inconsistent with setup"] }
      (Or.inl rfl) rfl).1 rfl rfl).1
  · exact (C5_correctness_paths { gen := some ⟨.obj [], .obj []⟩ } 0 {} {}
      ⟨.obj [], .obj []⟩ {} (Or.inl rfl) rfl).2.1 rfl

/-- C6: when concept selection succeeded but the first generation fails,
the pipeline result is not accepted, the generation error is recorded,
the generator was called exactly once, and no revision call is ever made
— the failed attempt is not retried. -/
theorem C6_gen_failure (orc : Oracles) (maxRevisions : Nat) (sel : JsonVal)
    (hsel : orc.select = some sel) (hgen : orc.gen = none) :
    (generateQuestion orc maxRevisions).1.accepted = false
  ∧ genFailError 0 ∈ (generateQuestion orc maxRevisions).1.errors
  ∧ (generateQuestion orc maxRevisions).2.genCalls = 1
  ∧ (generateQuestion orc maxRevisions).2.reviseCalls = 0 := by
  have hstep : stepIter orc 0 { conceptSelection := some sel } {}
      = .next { conceptSelection := some sel, errors := [genFailError 0] }
          (bumpGen 0 {}) := by
    simp [stepIter, hgen]
  simp only [generateQuestion, hsel]
  cases maxRevisions with
  | zero =>
    simp only [runLoop, hstep]
    simp [createResult, bumpGen]
  | succ n =>
    have hstep2 : stepIter orc 1
        { conceptSelection := some sel, errors := [genFailError 0] } (bumpGen 0 {})
        = .crash { conceptSelection := some sel, revisionCount := 1,
                   errors := [genFailError 0, pyNoneGetError] } (bumpGen 0 {}) := by
      simp [stepIter]
    simp only [runLoop, hstep, hstep2]
    simp [createResult, bumpGen]

/-- C6 witness: `C6_gen_failure` applied to an environment whose
selection succeeds and whose generator always fails, with the default
`max_revisions = 3`. -/
theorem C6_witness :
    (generateQuestion { select := some (.obj []) } 3).1.accepted = false
  ∧ genFailError 0 ∈ (generateQuestion { select := some (.obj []) } 3).1.errors
  ∧ (generateQuestion { select := some (.obj []) } 3).2.genCalls = 1
  ∧ (generateQuestion { select := some (.obj []) } 3).2.reviseCalls = 0 :=
  C6_gen_failure { select := some (.obj []) } 3 (.obj []) rfl rfl

/-! ### Generator revision count (C7) -/

/-- C7: the blueprint returned on the success path of `revise_question`
has `revision_count` equal to the input blueprint dict's
`revision_count` (0 when absent) plus 1 — hence strictly greater —
whatever the issues, suggestions, and LLM reply contents are. -/
theorem C7_revision_count (question : JsonVal) (bp : BlueprintDict)
    (issues suggestions : List String) (data : RawGen)
    (bpOut : BlueprintOut) (qc : List Choice) (rc : Nat)
    (h : reviseQuestion question bp issues suggestions (some data)
          = .ok bpOut qc rc) :
    bpOut.revisionCount = bp.revisionCount.getD 0 + 1
  ∧ bp.revisionCount.getD 0 < bpOut.revisionCount := by
  simp only [reviseQuestion, ReviseResult.ok.injEq] at h
  obtain ⟨hbp, hqc, hrc⟩ := h
  have hb : bpOut.revisionCount = bp.revisionCount.getD 0 + 1 := by rw [← hbp]
  exact ⟨hb, by omega⟩

/-- C7 witness: `C7_revision_count` applied to a blueprint dict with
`revision_count = 2` and an empty LLM reply; the revised blueprint's
count is 3. -/
theorem C7_witness :
    BlueprintOut.revisionCount
        { conceptId := "unknown", conceptName := "Unknown", difficultyTarget := 3,
          distractors := [{ id := "2", misconception := "Plausible but incorrect",
                            errorType := "conceptual" },
                          { id := "3", misconception := "Plausible but incorrect",
                            errorType := "conceptual" },
                          { id := "4", misconception := "Plausible but incorrect",
                            errorType := "conceptual" }],
          requiresImage := false, tags := ["Thinking Skills"], revisionCount := 3 }
      = (some 2 : Option Nat).getD 0 + 1
  ∧ (some 2 : Option Nat).getD 0
      < BlueprintOut.revisionCount
          { conceptId := "unknown", conceptName := "Unknown", difficultyTarget := 3,
            distractors := [{ id := "2", misconception := "Plausible but incorrect",
                              errorType := "conceptual" },
                            { id := "3", misconception := "Plausible but incorrect",
                              errorType := "conceptual" },
                            { id := "4", misconception := "Plausible but incorrect",
                              errorType := "conceptual" }],
            requiresImage := false, tags := ["Thinking Skills"], revisionCount := 3 } :=
  C7_revision_count (.obj []) { revisionCount := some 2 } [] [] {}
    _ [placeholderChoice 1, placeholderChoice 2, placeholderChoice 3, placeholderChoice 4] 3
    (by simp +decide [reviseQuestion, parseBlueprint, parseQuestionChoices, padDistractors,
      padChoices, mkDistractorsFrom, mkChoicesFrom, numDistractors, numChoices,
      placeholderChoice])

/-! ### Transport round trip (C8) -/

/-- C8: at the handler result `{"success": true}` the text the service
host places in `parts[0].text` is Python `str()` output — `{'success':
True}` — which `json.loads` rejects, so the inner payload does not parse
back to the handler's object; the canonical JSON text of the same object
does round-trip, and the client-side envelope carries `method` and the
correlation `id` verbatim. -/
theorem C8_transport_response_text :
    hostResponseText (.obj [("success", .bool true)]) = "\x7b\x27success\x27: True\x7d"
  ∧ parseJson (hostResponseText (.obj [("success", .bool true)])) = none
  ∧ canonicalResponseText (.obj [("success", .bool true)]) = "\x7b\x22success\x22: true\x7d"
  ∧ parseJson (canonicalResponseText (.obj [("success", .bool true)]))
      = some (.obj [("success", .bool true)])
  ∧ (encodeRequest "payload" "mid").getKey "method" = some (.str "message/send")
  ∧ (encodeRequest "payload" "mid").getKey "id" = some (.num 1) :=
  ⟨rfl, rfl, rfl, rfl, rfl, rfl⟩

end A2A
